import Mathlib

/-!
Shallow embedding of the CampRegistrationBackendHttp webhook-to-broadcast
pipeline (src/stripe_webhook.rs, src/websocket_handler.rs,
src/database/models.rs, src/database/schema.rs).

Conventions of the embedding:
* Database rows become Lean structures mirroring the diesel models; the
  database-generated timestamp columns (`created_at`, `updated_at`) are not
  observable by any claim and are omitted.
* The external stripe library's `Webhook::construct_event` (cryptographic
  signature verification and JSON decoding) is an oracle parameter
  `constructEvent : String → String → String → Option StripeEventData`
  (payload, signature header, secret); `none` is any construction failure.
* Fallible effects (pool `get_conn`, diesel `insert`/`load`) are driven by
  explicit Boolean outcome fields of `DispatchEnv`, one per call site, since
  each call site performs its own independent pool checkout in the source.
* Side effects are reified: the handler returns the HTTP response, the list
  of successfully inserted `payment_events` rows, the list of ledger queries
  issued, and the list of `send_message_to_clients` calls made.
-/

namespace CampReg

/-- Row of the `websocket_connections` table (src/database/models.rs,
`WebSocketConnection` / `NewWebSocketConnection`); the timestamp columns are
database defaults and are omitted. `id` is the generated UUID, modelled as a
Nat-tagged fresh identifier. -/
structure SubscriptionRow where
  id : Nat
  payment_intent_id : String
  connection_id : String
  customer_id : Option String
  customer_email : Option String
  status : String
deriving Repr, DecidableEq

/-- Embedding of `WebSocketConnection::new` (src/database/models.rs lines
31-47): builds an insertable row with a fresh id and status `"active"`. -/
def WebSocketConnection.new (payment_intent_id connection_id : String)
    (customer_id customer_email : Option String) (freshId : Nat) : SubscriptionRow :=
  { id := freshId
    payment_intent_id := payment_intent_id
    connection_id := connection_id
    customer_id := customer_id
    customer_email := customer_email
    status := "active" }

/-- Row of the `payment_events` table (src/database/models.rs,
`NewPaymentEvent`); metadata is the payment intent's string-to-string map,
`id` and `created_at` are generated and omitted. -/
structure PaymentEventRow where
  payment_intent_id : String
  status : String
  amount : Option Int
  currency : Option String
  customer_id : Option String
  metadata : Option (List (String × String))
deriving Repr, DecidableEq

/-- Embedding of `PaymentEvent::new` (src/database/models.rs lines 74-93). -/
def PaymentEvent.new (payment_intent_id status : String) (amount : Option Int)
    (currency : Option String) (customer_id : Option String)
    (metadata : Option (List (String × String))) : PaymentEventRow :=
  { payment_intent_id := payment_intent_id
    status := status
    amount := amount
    currency := currency
    customer_id := customer_id
    metadata := metadata }

/-- The stripe event types that appear in src/stripe_webhook.rs: the nine
payment-intent lifecycle types of the big match arm (lines 134-142), the
three logged-only types (lines 280-289), and a catch-all for every other
event type of the stripe crate. -/
inductive EventType where
  | PaymentIntentSucceeded
  | PaymentIntentCanceled
  | PaymentIntentPartiallyFunded
  | PaymentIntentPaymentFailed
  | PaymentIntentRequiresAction
  | PaymentIntentRequiresCapture
  | PaymentIntentAmountCapturableUpdated
  | PaymentIntentCreated
  | PaymentIntentProcessing
  | PaymentMethodAttached
  | ChargeSucceeded
  | ChargeUpdated
  | Other (name : String)
deriving Repr, DecidableEq

/-- The fields of a stripe `PaymentIntent` object read by the webhook
handler: id, amount, currency, optional customer, string metadata map. -/
structure PaymentIntentData where
  id : String
  amount : Int
  currency : String
  customer : Option String
  metadata : List (String × String)
deriving Repr, DecidableEq

/-- The `EventObject` payload variants the handler inspects. -/
inductive EventObject where
  | paymentIntent (pi : PaymentIntentData)
  | paymentMethod (id : String)
  | charge (id : String) (status : String)
  | other
deriving Repr, DecidableEq

/-- A verified stripe event as consumed by `webhook_handler`: its `type_`
and its `data.object`. -/
structure StripeEventData where
  type_ : EventType
  object : EventObject
deriving Repr, DecidableEq

/-- Modelled from the spec: `PaymentIntentStatus::try_from` lives in the
`lambda_lib` crate, which is not under src/.  Per the spec it is a "1:1
table" mapping the nine payment-lifecycle event types to canonical status
codes, and "unmapped event types yield `UnmappedStatus`" (an error, here
`none`).  The particular code strings are not observed by any claim. -/
def paymentIntentStatus_tryFrom : EventType → Option String
  | .PaymentIntentSucceeded => some "succeeded"
  | .PaymentIntentCanceled => some "canceled"
  | .PaymentIntentPartiallyFunded => some "partially_funded"
  | .PaymentIntentPaymentFailed => some "payment_failed"
  | .PaymentIntentRequiresAction => some "requires_action"
  | .PaymentIntentRequiresCapture => some "requires_capture"
  | .PaymentIntentAmountCapturableUpdated => some "amount_capturable_updated"
  | .PaymentIntentCreated => some "created"
  | .PaymentIntentProcessing => some "processing"
  | _ => none

/-- True exactly for the nine event types of the payment-intent match arm
in src/stripe_webhook.rs lines 134-142. -/
def isPaymentIntentLifecycle : EventType → Bool
  | .PaymentIntentSucceeded => true
  | .PaymentIntentCanceled => true
  | .PaymentIntentPartiallyFunded => true
  | .PaymentIntentPaymentFailed => true
  | .PaymentIntentRequiresAction => true
  | .PaymentIntentRequiresCapture => true
  | .PaymentIntentAmountCapturableUpdated => true
  | .PaymentIntentCreated => true
  | .PaymentIntentProcessing => true
  | _ => false

/-- Environment of one `webhook_handler` invocation: presence of the
optional `database_client` and `websocket_service` in `AppState`, the
outcome of each fallible database call (each call site checks out its own
pool connection in the source), the current contents of the
`websocket_connections` table, and the wall-clock timestamp string. -/
structure DispatchEnv where
  dbAvailable : Bool
  persistConnOk : Bool
  insertOk : Bool
  queryConnOk : Bool
  queryOk : Bool
  ledger : List SubscriptionRow
  wsServiceAvailable : Bool
  timestamp : String
deriving Repr, DecidableEq

/-- The notification message of src/stripe_webhook.rs lines 188-199,
field for field. -/
structure PaymentUpdateMessage where
  type_ : String
  payment_intent_id : String
  status : String
  amount : Int
  currency : String
  transaction_id : String
  timestamp : String
  customer_id : Option String
  frontend_id : Option String
deriving Repr, DecidableEq

/-- One call to `WebSocketService::send_message_to_clients` (the Client
Registry's targeted send), with the arguments passed at
src/stripe_webhook.rs lines 252-258. -/
structure DeliveryCall where
  transaction_id : String
  message : PaymentUpdateMessage
  connection_ids : List String
deriving Repr, DecidableEq

/-- Observable outcome of one webhook call: HTTP response (status code and
body), `payment_events` rows successfully inserted, ledger queries issued
(transaction id and optional frontend filter), and Client Registry delivery
calls made. -/
structure HandlerResult where
  response : Nat × String
  insertedEvents : List PaymentEventRow
  ledgerQueries : List (String × Option String)
  deliveries : List DeliveryCall
deriving Repr, DecidableEq

/-- The boxed diesel query of src/stripe_webhook.rs lines 208-222:
`websocket_connections` filtered by `payment_intent_id`, by
`status = "active"`, and — when the event metadata carries a frontend
identifier — by `customer_id = frontend_identifier` (SQL `NULL = x` is not
true, so rows with NULL `customer_id` never match the narrowed query). -/
def queryActiveConnections (ledger : List SubscriptionRow) (txId : String)
    (frontendId : Option String) : List SubscriptionRow :=
  ledger.filter fun r =>
    r.payment_intent_id == txId && r.status == "active" &&
      match frontendId with
      | some fid => r.customer_id == some fid
      | none => true

/-- Embedding of the payment-intent branch of `webhook_handler`
(src/stripe_webhook.rs lines 143-278): extract fields, attempt to persist a
`PaymentEvent` row, build the notification message, query the ledger for
active connections (narrowed by frontend id when present), and when the
result is non-empty and the websocket service exists, issue one
`send_message_to_clients` call targeting those connection ids. -/
def dispatchPaymentIntent (env : DispatchEnv) (status : String)
    (pi : PaymentIntentData) : HandlerResult :=
  let currency := pi.currency
  let customer_id := pi.customer
  let frontend_id := (pi.metadata.lookup "frontend_id")
  let payment_event := PaymentEvent.new pi.id status (some pi.amount)
    (some currency) customer_id (some pi.metadata)
  let inserted :=
    if env.dbAvailable && env.persistConnOk && env.insertOk then [payment_event] else []
  let message : PaymentUpdateMessage :=
    { type_ := "payment_update"
      payment_intent_id := pi.id
      status := status
      amount := pi.amount
      currency := currency
      transaction_id := pi.id
      timestamp := env.timestamp
      customer_id := customer_id
      frontend_id := frontend_id }
  if env.dbAvailable && env.queryConnOk then
    if env.queryOk then
      let connections := queryActiveConnections env.ledger pi.id frontend_id
      if connections.isEmpty then
        { response := (200, "Webhook received")
          insertedEvents := inserted
          ledgerQueries := [(pi.id, frontend_id)]
          deliveries := [] }
      else
        if env.wsServiceAvailable then
          { response := (200, "Webhook received")
            insertedEvents := inserted
            ledgerQueries := [(pi.id, frontend_id)]
            deliveries := [{ transaction_id := pi.id
                             message := message
                             connection_ids := connections.map (·.connection_id) }] }
        else
          { response := (200, "Webhook received")
            insertedEvents := inserted
            ledgerQueries := [(pi.id, frontend_id)]
            deliveries := [] }
    else
      { response := (200, "Webhook received")
        insertedEvents := inserted
        ledgerQueries := [(pi.id, frontend_id)]
        deliveries := [] }
  else
    { response := (200, "Webhook received")
      insertedEvents := inserted
      ledgerQueries := []
      deliveries := [] }

/-- Embedding of `webhook_handler` (src/stripe_webhook.rs lines 118-296).
`PaymentIntentStatus::try_from` failure returns `200 OK` immediately with no
side effects (lines 125-131); the nine payment-intent lifecycle types run
`dispatchPaymentIntent` when the event object is a `PaymentIntent`; the
`PaymentMethodAttached`, charge, and wildcard arms only log. Every path
ends with `(200, "Webhook received")`. -/
def webhook_handler (env : DispatchEnv) (ev : StripeEventData) : HandlerResult :=
  match paymentIntentStatus_tryFrom ev.type_ with
  | none =>
    { response := (200, "Webhook received")
      insertedEvents := [], ledgerQueries := [], deliveries := [] }
  | some status =>
    if isPaymentIntentLifecycle ev.type_ then
      match ev.object with
      | .paymentIntent pi => dispatchPaymentIntent env status pi
      | _ =>
        { response := (200, "Webhook received")
          insertedEvents := [], ledgerQueries := [], deliveries := [] }
    else
      { response := (200, "Webhook received")
        insertedEvents := [], ledgerQueries := [], deliveries := [] }

/-- Inbound webhook request as seen by the `StripeEvent` extractor, with
each decoding step's result reified:
`appStatePresent` — the `Arc<Mutex<AppState>>` extension is present;
`signatureHeader` — `none` when the `stripe-signature` header is absent,
`some none` when `to_str` on it fails, `some (some s)` for header string s;
`payload` — result of reading the request body and `String::from_utf8`:
`none` for a read error, `some none` for invalid UTF-8, `some (some p)` for
payload string p. -/
structure WebhookRequest where
  appStatePresent : Bool
  signatureHeader : Option (Option String)
  payload : Option (Option String)
deriving Repr, DecidableEq

/-- Embedding of `StripeEvent::from_request_parts`
(src/stripe_webhook.rs lines 27-83): missing app-state extension, missing
signature header, non-string header, body read error, invalid UTF-8, and
`Webhook::construct_event` failure each reject with `400 Bad Request`
before any event is produced. `constructEvent payload signature secret` is
the external stripe-library verification oracle. -/
def from_request_parts
    (constructEvent : String → String → String → Option StripeEventData)
    (secret : String) (req : WebhookRequest) : Except Nat StripeEventData :=
  if !req.appStatePresent then .error 400
  else
    match req.signatureHeader with
    | none => .error 400
    | some none => .error 400
    | some (some signature) =>
      match req.payload with
      | none => .error 400
      | some none => .error 400
      | some (some payload_str) =>
        match constructEvent payload_str signature secret with
        | none => .error 400
        | some event => .ok event

/-- The complete webhook endpoint: run the `StripeEvent` extractor; a
rejection is returned to the caller as-is (the handler never runs, so no
row is inserted and no delivery is attempted); on success run
`webhook_handler`. -/
def webhook_endpoint
    (constructEvent : String → String → String → Option StripeEventData)
    (secret : String) (env : DispatchEnv) (req : WebhookRequest) : HandlerResult :=
  match from_request_parts constructEvent secret req with
  | .error code =>
    { response := (code, ""), insertedEvents := [], ledgerQueries := [], deliveries := [] }
  | .ok ev => webhook_handler env ev

/-- Contract of `axum::body::to_bytes(body, limit)` as used at
src/stripe_webhook.rs line 98 (axum is an external collaborator): collects
the whole body when its length is at most `limit` bytes, errors otherwise. -/
def to_bytes (body : List Nat) (limit : Nat) : Option (List Nat) :=
  if body.length ≤ limit then some body else none

/-- Embedding of `StripeEvent::from_request` (src/stripe_webhook.rs lines
93-112): buffer the body with `to_bytes(body, 65_536)` — failure is an
immediate `400` before any signature processing — then hand the buffered
bytes to `from_request_parts`; `utf8Decode` is the external bytes-to-string
decoding, giving that call's payload view of the buffered bytes. -/
def from_request
    (constructEvent : String → String → String → Option StripeEventData)
    (secret : String) (utf8Decode : List Nat → Option String)
    (req : WebhookRequest) (body : List Nat) : Except Nat StripeEventData :=
  match to_bytes body 65536 with
  | none => .error 400
  | some bytes =>
    from_request_parts constructEvent secret
      { req with payload := some (utf8Decode bytes) }

/-- The webhook endpoint when the extractor runs through the
body-buffering `from_request` path: a rejection reaches the caller with no
event processed, success runs `webhook_handler`. -/
def webhook_endpoint_buffered
    (constructEvent : String → String → String → Option StripeEventData)
    (secret : String) (utf8Decode : List Nat → Option String)
    (env : DispatchEnv) (req : WebhookRequest) (body : List Nat) : HandlerResult :=
  match from_request constructEvent secret utf8Decode req body with
  | .error code =>
    { response := (code, ""), insertedEvents := [], ledgerQueries := [], deliveries := [] }
  | .ok ev => webhook_handler env ev

/-- Modelled from the spec: the Client Registry's targeted send
(`WebSocketService::send_message_to_clients`, defined in the `lambda_lib`
crate, not under src/).  Per the spec it "sends only to the intersection of
registered channels under `transaction_id` whose connection id is in
`connection_ids`; channels for ids not currently registered are silently
skipped".  The registry is a list of (transaction id, connection id)
registered channels; the result is the list of connection ids that receive
the message. -/
def send_to (registry : List (String × String)) (txId : String)
    (connectionIds : List String) : List String :=
  (registry.filter fun rc => rc.1 == txId && connectionIds.contains rc.2).map (·.2)

/-- Connection ids that actually receive the update from one webhook call:
each `send_message_to_clients` call of the handler composed with the
Client Registry's targeted send. -/
def dispatchReceivers (env : DispatchEnv) (registry : List (String × String))
    (ev : StripeEventData) : List String :=
  ((webhook_handler env ev).deliveries).flatMap fun d =>
    send_to registry d.transaction_id d.connection_ids

/-- JSON values as far as the socket session inspects them: it only ever
reads string-valued fields (`as_str` returns `None` on anything else). -/
inductive JVal where
  | str (s : String)
  | other
deriving Repr, DecidableEq

/-- A parsed JSON object: association list from keys to values. -/
abbrev JObj := List (String × JVal)

/-- Embedding of `json.get(k).and_then(|v| v.as_str())`: the value at key
`k` when it exists and is a string. -/
def jStr (o : JObj) (k : String) : Option String :=
  match o.lookup k with
  | some (.str s) => some s
  | _ => none

/-- Observable effects of processing one inbound socket text frame:
`register_client` calls made on the Client Registry (transaction ids the
connection's queue was registered under), `websocket_connections` rows
successfully inserted, and messages enqueued to this connection's outbound
queue. -/
structure SessionEffects where
  registrations : List String
  insertedRows : List SubscriptionRow
  sentMessages : List JObj
deriving Repr, DecidableEq

/-- Embedding of the inbound-frame processing of `handle_socket`
(src/websocket_handler.rs lines 54-130) for one text frame:
a frame that fails to parse (`frame = none`), has no string `"type"` field,
is not of type `"subscribe"`, or lacks a string `"payment_intent_id"` field
produces no effect; a well-formed subscribe frame registers the connection
under the frame's `payment_intent_id` (when the websocket service exists),
inserts a `WebSocketConnection::new` row (when a pool connection is obtained
and the insert succeeds), and enqueues the
`{type: subscription_confirmed, payment_intent_id}` confirmation. -/
def handleTextMessage (wsServiceAvailable dbConnOk insertOk : Bool)
    (connectionId : String) (freshId : Nat) (frame : Option JObj) : SessionEffects :=
  match frame with
  | none => { registrations := [], insertedRows := [], sentMessages := [] }
  | some json =>
    match jStr json "type" with
    | none => { registrations := [], insertedRows := [], sentMessages := [] }
    | some msgType =>
      if msgType == "subscribe" then
        match jStr json "payment_intent_id" with
        | none => { registrations := [], insertedRows := [], sentMessages := [] }
        | some payment_intent_id =>
          let registrations := if wsServiceAvailable then [payment_intent_id] else []
          let customer_id := jStr json "customer_id"
          let customer_email := jStr json "customer_email"
          let ws_conn := WebSocketConnection.new payment_intent_id connectionId
            customer_id customer_email freshId
          let insertedRows := if dbConnOk && insertOk then [ws_conn] else []
          let confirmation : JObj :=
            [("type", .str "subscription_confirmed"),
             ("payment_intent_id", .str payment_intent_id)]
          { registrations := registrations
            insertedRows := insertedRows
            sentMessages := [confirmation] }
      else { registrations := [], insertedRows := [], sentMessages := [] }

/-- Embedding of the teardown update of `handle_socket`
(src/websocket_handler.rs lines 143-155).  The source writes
`use crate::database::schema::websocket_connections::dsl::*;` inside the
block and then
`diesel::update(websocket_connections.filter(connection_id.eq(connection_id.clone())))`.
Both occurrences of `connection_id` resolve to the glob-imported diesel
column (an item in the inner block's scope, which shadows the outer local
`String` binding of line 46; had they resolved to the `String`, the
expression would not typecheck, since `String` is not a diesel expression
and `PartialEq::eq` takes its argument by reference).  The compiled SQL is
therefore `UPDATE websocket_connections SET status = 'inactive' WHERE
connection_id = connection_id`, whose condition holds for every row of the
non-nullable `connection_id` column.  The `if` below mirrors that WHERE
clause literally; the `closedConnectionId` argument — the session's own
connection id — is unused, exactly as the local variable is unused in the
compiled filter. -/
def teardown_update (ledger : List SubscriptionRow)
    (_closedConnectionId : String) : List SubscriptionRow :=
  ledger.map fun r =>
    if r.connection_id == r.connection_id then { r with status := "inactive" } else r

/-- The operations of this program that write the `websocket_connections`
table: the subscribe-frame insert (src/websocket_handler.rs lines 96-111)
and the teardown update (lines 143-155).  No other statement in the
repository writes or deletes rows of this table. -/
inductive LedgerOp where
  | subscribe (payment_intent_id connId : String)
      (customer_id customer_email : Option String) (freshId : Nat)
  | teardown (connId : String)
deriving Repr, DecidableEq

/-- Apply one ledger-writing operation to the table contents. -/
def applyLedgerOp (ledger : List SubscriptionRow) : LedgerOp → List SubscriptionRow
  | .subscribe pid cid cu em n => ledger ++ [WebSocketConnection.new pid cid cu em n]
  | .teardown cid => teardown_update ledger cid

/-- One row evolves into another when it is unchanged or its status has
been overwritten with `"inactive"` (all other columns intact). -/
def rowEvolves (old new : SubscriptionRow) : Prop :=
  new = old ∨ new = { old with status := "inactive" }

/-- A table state evolves into another when no row has been deleted and
every pre-existing row position holds the old row, at most with its status
overwritten to `"inactive"`. -/
def ledgerEvolves (old new : List SubscriptionRow) : Prop :=
  old.length ≤ new.length ∧
    ∀ (i : Nat) r r', old[i]? = some r → new[i]? = some r' → rowEvolves r r'

/-! Theorems settling the claims. -/

/-- C1: for every inbound webhook call whose stripe-signature header is
missing, or whose signature fails cryptographic verification against the
webhook secret, or whose body is malformed (unreadable, not UTF-8, or
rejected by event construction), the response is 400 Bad Request, no
PaymentEvent row is inserted, and no delivery to any socket is attempted. -/
theorem C1_unauthenticated_rejected
    (constructEvent : String → String → String → Option StripeEventData)
    (secret : String) (env : DispatchEnv) (req : WebhookRequest)
    (h : req.signatureHeader = none ∨ req.signatureHeader = some none ∨
         req.payload = none ∨ req.payload = some none ∨
         (∃ sig p, req.signatureHeader = some (some sig) ∧ req.payload = some (some p) ∧
            constructEvent p sig secret = none)) :
    (webhook_endpoint constructEvent secret env req).response.1 = 400 ∧
    (webhook_endpoint constructEvent secret env req).insertedEvents = [] ∧
    (webhook_endpoint constructEvent secret env req).deliveries = [] := by
  cases hap : req.appStatePresent with
  | false => simp [webhook_endpoint, from_request_parts, hap]
  | true =>
    rcases h with h | h | h | h | ⟨sig, p, h1, h2, h3⟩
    · simp [webhook_endpoint, from_request_parts, hap, h]
    · simp [webhook_endpoint, from_request_parts, hap, h]
    · cases hs : req.signatureHeader with
      | none => simp [webhook_endpoint, from_request_parts, hap, hs]
      | some s =>
        cases s with
        | none => simp [webhook_endpoint, from_request_parts, hap, hs]
        | some sig => simp [webhook_endpoint, from_request_parts, hap, hs, h]
    · cases hs : req.signatureHeader with
      | none => simp [webhook_endpoint, from_request_parts, hap, hs]
      | some s =>
        cases s with
        | none => simp [webhook_endpoint, from_request_parts, hap, hs]
        | some sig => simp [webhook_endpoint, from_request_parts, hap, hs, h]
    · simp [webhook_endpoint, from_request_parts, hap, h1, h2, h3]

/-- Witness for C1 at a concrete input: header absent. -/
theorem C1_unauthenticated_rejected_witness :
    (webhook_endpoint (fun _ _ _ => none) "whsec"
        { dbAvailable := true, persistConnOk := true, insertOk := true,
          queryConnOk := true, queryOk := true, ledger := [],
          wsServiceAvailable := true, timestamp := "t" }
        { appStatePresent := true, signatureHeader := none,
          payload := some (some "body") }).response.1 = 400 ∧
    (webhook_endpoint (fun _ _ _ => none) "whsec"
        { dbAvailable := true, persistConnOk := true, insertOk := true,
          queryConnOk := true, queryOk := true, ledger := [],
          wsServiceAvailable := true, timestamp := "t" }
        { appStatePresent := true, signatureHeader := none,
          payload := some (some "body") }).insertedEvents = [] ∧
    (webhook_endpoint (fun _ _ _ => none) "whsec"
        { dbAvailable := true, persistConnOk := true, insertOk := true,
          queryConnOk := true, queryOk := true, ledger := [],
          wsServiceAvailable := true, timestamp := "t" }
        { appStatePresent := true, signatureHeader := none,
          payload := some (some "body") }).deliveries = [] :=
  C1_unauthenticated_rejected (fun _ _ _ => none) "whsec" _ _ (Or.inl rfl)

/-- C6: for every webhook call with a valid signature (the extractor
succeeds) whose event type is not one of the nine recognized
payment-lifecycle types, the system responds 200 OK with no dispatch side
effects: no PaymentEvent row inserted, no ledger query, no delivery. -/
theorem C6_unrecognized_event_no_side_effects
    (constructEvent : String → String → String → Option StripeEventData)
    (secret : String) (env : DispatchEnv) (req : WebhookRequest) (ev : StripeEventData)
    (hok : from_request_parts constructEvent secret req = .ok ev)
    (hlife : isPaymentIntentLifecycle ev.type_ = false) :
    webhook_endpoint constructEvent secret env req =
      { response := (200, "Webhook received"), insertedEvents := [],
        ledgerQueries := [], deliveries := [] } := by
  unfold webhook_endpoint
  rw [hok]
  cases ev with
  | mk t o =>
    cases t <;>
      simp_all [webhook_handler, isPaymentIntentLifecycle, paymentIntentStatus_tryFrom]

/-- Witness for C6 at a concrete input: a verified event of an unhandled
type. -/
theorem C6_unrecognized_event_no_side_effects_witness :
    webhook_endpoint
        (fun _ _ _ => some { type_ := .Other "invoice.paid", object := .other }) "whsec"
        { dbAvailable := true, persistConnOk := true, insertOk := true,
          queryConnOk := true, queryOk := true, ledger := [],
          wsServiceAvailable := true, timestamp := "t" }
        { appStatePresent := true, signatureHeader := some (some "sig"),
          payload := some (some "body") } =
      { response := (200, "Webhook received"), insertedEvents := [],
        ledgerQueries := [], deliveries := [] } :=
  C6_unrecognized_event_no_side_effects
    (fun _ _ _ => some { type_ := .Other "invoice.paid", object := .other })
    "whsec" _ _ { type_ := .Other "invoice.paid", object := .other } rfl rfl

/-- C7 counterexample: a verified event whose type fails to map to a
canonical status code is NOT persisted — with the store fully available,
the handler returns early and inserts no PaymentEvent row, contrary to the
claim that the event is "still persisted". -/
theorem C7_unmapped_event_not_persisted_counterexample :
    (webhook_handler
        { dbAvailable := true, persistConnOk := true, insertOk := true,
          queryConnOk := true, queryOk := true, ledger := [],
          wsServiceAvailable := true, timestamp := "t" }
        { type_ := .Other "checkout.session.completed",
          object := .paymentIntent
            { id := "pi-1", amount := 100, currency := "usd",
              customer := none, metadata := [] } }).insertedEvents = [] := rfl

/-- C7 amended: for every verified event whose type fails to map to a
canonical status code, the failure is non-fatal only in that the call still
succeeds with 200 OK; the event is NOT persisted — processing stops before
persistence, with no PaymentEvent row, no ledger query, and no delivery. -/
theorem C7_amended_unmapped_event_acknowledged_without_persistence
    (env : DispatchEnv) (ev : StripeEventData)
    (h : paymentIntentStatus_tryFrom ev.type_ = none) :
    webhook_handler env ev =
      { response := (200, "Webhook received"), insertedEvents := [],
        ledgerQueries := [], deliveries := [] } := by
  simp [webhook_handler, h]

/-- Witness for the amended C7 at a concrete input. -/
theorem C7_amended_unmapped_event_witness :
    webhook_handler
        { dbAvailable := true, persistConnOk := true, insertOk := true,
          queryConnOk := true, queryOk := true, ledger := [],
          wsServiceAvailable := true, timestamp := "t" }
        { type_ := .PaymentMethodAttached, object := .paymentMethod "pm-1" } =
      { response := (200, "Webhook received"), insertedEvents := [],
        ledgerQueries := [], deliveries := [] } :=
  C7_amended_unmapped_event_acknowledged_without_persistence _ _ rfl

/-- C10: a request body longer than 65,536 bytes makes the buffering
`StripeEvent::from_request` extractor fail with 400 before signature
verification (for every verification oracle and every header content), with
no event processed — no row inserted and no delivery; a body of at most
65,536 bytes is buffered in full by `to_bytes`. -/
theorem C10_body_size_limit
    (constructEvent : String → String → String → Option StripeEventData)
    (secret : String) (utf8Decode : List Nat → Option String)
    (env : DispatchEnv) (req : WebhookRequest) (body : List Nat) :
    (65536 < body.length →
      from_request constructEvent secret utf8Decode req body = .error 400 ∧
      webhook_endpoint_buffered constructEvent secret utf8Decode env req body =
        { response := (400, ""), insertedEvents := [],
          ledgerQueries := [], deliveries := [] }) ∧
    (body.length ≤ 65536 → to_bytes body 65536 = some body) := by
  constructor
  · intro h
    have hb : to_bytes body 65536 = none := by
      simp [to_bytes, Nat.not_le.mpr h]
    constructor
    · simp [from_request, hb]
    · simp [webhook_endpoint_buffered, from_request, hb]
  · intro h
    simp [to_bytes, h]

/-- Witness for C10 at concrete inputs: an oversized body is rejected, a
small body is buffered in full. -/
theorem C10_body_size_limit_witness :
    from_request (fun _ _ _ => none) "whsec" (fun _ => none)
        { appStatePresent := true, signatureHeader := some (some "sig"),
          payload := none }
        (List.replicate 70000 0) = .error 400 ∧
    to_bytes [1, 2, 3] 65536 = some [1, 2, 3] := by
  constructor
  · exact ((C10_body_size_limit (fun _ _ _ => none) "whsec" (fun _ => none)
      { dbAvailable := true, persistConnOk := true, insertOk := true,
        queryConnOk := true, queryOk := true, ledger := [],
        wsServiceAvailable := true, timestamp := "t" }
      { appStatePresent := true, signatureHeader := some (some "sig"),
        payload := none }
      (List.replicate 70000 0)).1 (by rw [List.length_replicate]; norm_num)).1
  · exact (C10_body_size_limit (fun _ _ _ => none) "whsec" (fun _ => none)
      { dbAvailable := true, persistConnOk := true, insertOk := true,
        queryConnOk := true, queryOk := true, ledger := [],
        wsServiceAvailable := true, timestamp := "t" }
      { appStatePresent := true, signatureHeader := some (some "sig"),
        payload := none }
      [1, 2, 3]).2 (by simp)

/-- C3 counterexample: with the Connection Ledger unavailable (no database
client) and an in-memory subscriber registered for the transaction, a
verified payment-lifecycle event produces no delivery call at all — no
broadcast-by-transaction-id fallback exists, so the in-memory subscriber
"c-1" receives nothing, contrary to the claim. -/
theorem C3_no_fallback_broadcast_counterexample :
    (webhook_handler
        { dbAvailable := false, persistConnOk := true, insertOk := true,
          queryConnOk := true, queryOk := true, ledger := [],
          wsServiceAvailable := true, timestamp := "t" }
        { type_ := .PaymentIntentSucceeded,
          object := .paymentIntent
            { id := "pi-1", amount := 100, currency := "usd",
              customer := none, metadata := [] } }).deliveries = [] ∧
    dispatchReceivers
        { dbAvailable := false, persistConnOk := true, insertOk := true,
          queryConnOk := true, queryOk := true, ledger := [],
          wsServiceAvailable := true, timestamp := "t" }
        [("pi-1", "c-1")]
        { type_ := .PaymentIntentSucceeded,
          object := .paymentIntent
            { id := "pi-1", amount := 100, currency := "usd",
              customer := none, metadata := [] } } = [] := ⟨rfl, rfl⟩

/-- C3 amended: for every verified payment-lifecycle event, when the
Connection Ledger query is skipped (no database client), unavailable (no
pool connection or query error), or returns no rows, the dispatcher
delivers nothing: no Client Registry call of any kind is made, so no
subscriber — in-memory or otherwise — receives the update. -/
theorem C3_amended_no_delivery_without_ledger_rows
    (env : DispatchEnv) (ev : StripeEventData) (pi : PaymentIntentData)
    (registry : List (String × String))
    (hobj : ev.object = .paymentIntent pi)
    (h : env.dbAvailable = false ∨ env.queryConnOk = false ∨ env.queryOk = false ∨
         queryActiveConnections env.ledger pi.id (pi.metadata.lookup "frontend_id") = []) :
    (webhook_handler env ev).deliveries = [] ∧
    dispatchReceivers env registry ev = [] := by
  have hdel : (webhook_handler env ev).deliveries = [] := by
    unfold webhook_handler
    cases htf : paymentIntentStatus_tryFrom ev.type_ with
    | none => rfl
    | some status =>
      dsimp only
      by_cases hl : isPaymentIntentLifecycle ev.type_
      · rw [if_pos hl, hobj]
        unfold dispatchPaymentIntent
        rcases h with h | h | h | h <;>
          simp [h, List.isEmpty_iff] <;> split_ifs <;> simp_all
      · rw [if_neg hl]
  refine ⟨hdel, ?_⟩
  unfold dispatchReceivers
  rw [hdel]
  rfl

/-- Witness for the amended C3 at a concrete input: ledger query returns
no rows, nothing is delivered. -/
theorem C3_amended_no_delivery_witness :
    (webhook_handler
        { dbAvailable := true, persistConnOk := true, insertOk := true,
          queryConnOk := true, queryOk := true,
          ledger := [{ id := 0, payment_intent_id := "pi-other", connection_id := "c-1",
                       customer_id := none, customer_email := none, status := "active" }],
          wsServiceAvailable := true, timestamp := "t" }
        { type_ := .PaymentIntentSucceeded,
          object := .paymentIntent
            { id := "pi-1", amount := 100, currency := "usd",
              customer := none, metadata := [] } }).deliveries = [] ∧
    dispatchReceivers
        { dbAvailable := true, persistConnOk := true, insertOk := true,
          queryConnOk := true, queryOk := true,
          ledger := [{ id := 0, payment_intent_id := "pi-other", connection_id := "c-1",
                       customer_id := none, customer_email := none, status := "active" }],
          wsServiceAvailable := true, timestamp := "t" }
        [("pi-1", "c-1")]
        { type_ := .PaymentIntentSucceeded,
          object := .paymentIntent
            { id := "pi-1", amount := 100, currency := "usd",
              customer := none, metadata := [] } } = [] :=
  C3_amended_no_delivery_without_ledger_rows _ _
    { id := "pi-1", amount := 100, currency := "usd", customer := none, metadata := [] }
    _ rfl (Or.inr (Or.inr (Or.inr (by decide))))

/-- C4: for every verified payment-lifecycle event whose metadata carries a
frontend identifier, every delivery call targets exactly the connection ids
of ledger rows matching the transaction id with status active and stored
subscriber identity (`customer_id`) equal to that identifier; a connection
whose rows never match (in particular one subscribed to the same
transaction under a different subscriber identity) receives nothing through
the Client Registry's targeted send. -/
theorem C4_targeted_delivery
    (env : DispatchEnv) (ev : StripeEventData) (pi : PaymentIntentData)
    (fid : String) (registry : List (String × String)) (c : String)
    (hobj : ev.object = .paymentIntent pi)
    (hfid : pi.metadata.lookup "frontend_id" = some fid)
    (hc : ∀ r ∈ env.ledger, r.connection_id = c →
        ¬(r.payment_intent_id = pi.id ∧ r.status = "active" ∧ r.customer_id = some fid)) :
    (∀ d ∈ (webhook_handler env ev).deliveries,
        d.transaction_id = pi.id ∧
        d.connection_ids =
          (env.ledger.filter fun r =>
              r.payment_intent_id == pi.id && r.status == "active" &&
                r.customer_id == some fid).map (·.connection_id)) ∧
    c ∉ dispatchReceivers env registry ev := by
  have hq : queryActiveConnections env.ledger pi.id (pi.metadata.lookup "frontend_id") =
      env.ledger.filter fun r =>
        r.payment_intent_id == pi.id && r.status == "active" &&
          r.customer_id == some fid := by
    rw [hfid]; rfl
  have hnotmem : c ∉ (env.ledger.filter fun r =>
      r.payment_intent_id == pi.id && r.status == "active" &&
        r.customer_id == some fid).map (·.connection_id) := by
    intro hb
    rcases List.mem_map.mp hb with ⟨r, hr, hrc⟩
    have hmem := List.mem_filter.mp hr
    have hprops := hmem.2
    simp only [Bool.and_eq_true, beq_iff_eq] at hprops
    exact hc r hmem.1 hrc ⟨hprops.1.1, hprops.1.2, hprops.2⟩
  have hdeliv : ∀ d ∈ (webhook_handler env ev).deliveries,
      d.transaction_id = pi.id ∧
      d.connection_ids =
        (env.ledger.filter fun r =>
            r.payment_intent_id == pi.id && r.status == "active" &&
              r.customer_id == some fid).map (·.connection_id) := by
    intro d hd
    unfold webhook_handler at hd
    cases htf : paymentIntentStatus_tryFrom ev.type_ with
    | none => rw [htf] at hd; simp at hd
    | some status =>
      rw [htf] at hd
      dsimp only at hd
      by_cases hl : isPaymentIntentLifecycle ev.type_
      · rw [if_pos hl, hobj] at hd
        unfold dispatchPaymentIntent at hd
        simp only [hfid] at hd
        split_ifs at hd <;> simp_all [queryActiveConnections]
      · rw [if_neg hl] at hd; simp at hd
  refine ⟨hdeliv, ?_⟩
  intro hrecv
  unfold dispatchReceivers at hrecv
  rcases List.mem_flatMap.mp hrecv with ⟨d, hd, hcd⟩
  have hsend : c ∈ d.connection_ids := by
    unfold send_to at hcd
    rcases List.mem_map.mp hcd with ⟨rc, hrc, hrc2⟩
    have := (List.mem_filter.mp hrc).2
    simp only [Bool.and_eq_true, beq_iff_eq] at this
    rw [← hrc2]
    exact List.elem_iff.mp this.2
  rw [(hdeliv d hd).2] at hsend
  exact hnotmem hsend

/-- Witness for C4 at a concrete input: two active subscriptions on the
same transaction under different subscriber identities; the event names
front-A, so delivery targets exactly c-1 and c-2 receives nothing. -/
theorem C4_targeted_delivery_witness :
    (∀ d ∈ (webhook_handler
        { dbAvailable := true, persistConnOk := true, insertOk := true,
          queryConnOk := true, queryOk := true,
          ledger := [{ id := 0, payment_intent_id := "pi-1", connection_id := "c-1",
                       customer_id := some "front-A", customer_email := none,
                       status := "active" },
                     { id := 1, payment_intent_id := "pi-1", connection_id := "c-2",
                       customer_id := some "front-B", customer_email := none,
                       status := "active" }],
          wsServiceAvailable := true, timestamp := "t" }
        { type_ := .PaymentIntentSucceeded,
          object := .paymentIntent
            { id := "pi-1", amount := 100, currency := "usd",
              customer := some "front-A",
              metadata := [("frontend_id", "front-A")] } }).deliveries,
        d.transaction_id = "pi-1" ∧
        d.connection_ids =
          ([{ id := 0, payment_intent_id := "pi-1", connection_id := "c-1",
              customer_id := some "front-A", customer_email := none,
              status := "active" },
            { id := 1, payment_intent_id := "pi-1", connection_id := "c-2",
              customer_id := some "front-B", customer_email := none,
              status := "active" }].filter fun r : SubscriptionRow =>
              r.payment_intent_id == "pi-1" && r.status == "active" &&
                r.customer_id == some "front-A").map (·.connection_id)) ∧
    "c-2" ∉ dispatchReceivers
        { dbAvailable := true, persistConnOk := true, insertOk := true,
          queryConnOk := true, queryOk := true,
          ledger := [{ id := 0, payment_intent_id := "pi-1", connection_id := "c-1",
                       customer_id := some "front-A", customer_email := none,
                       status := "active" },
                     { id := 1, payment_intent_id := "pi-1", connection_id := "c-2",
                       customer_id := some "front-B", customer_email := none,
                       status := "active" }],
          wsServiceAvailable := true, timestamp := "t" }
        [("pi-1", "c-1"), ("pi-1", "c-2")]
        { type_ := .PaymentIntentSucceeded,
          object := .paymentIntent
            { id := "pi-1", amount := 100, currency := "usd",
              customer := some "front-A",
              metadata := [("frontend_id", "front-A")] } } :=
  C4_targeted_delivery _ _
    { id := "pi-1", amount := 100, currency := "usd", customer := some "front-A",
      metadata := [("frontend_id", "front-A")] }
    "front-A" _ "c-2" rfl rfl (by decide)

/-- C8: failure to persist the PaymentEvent row — a failed pool checkout at
the persistence step or a failed insert — changes nothing downstream: the
HTTP response, the Connection Ledger queries issued, and the Client
Registry delivery calls are identical to those of a run in which
persistence succeeds, for every event and environment. -/
theorem C8_persistence_failure_does_not_affect_delivery
    (env : DispatchEnv) (ev : StripeEventData) (p i : Bool) :
    (webhook_handler { env with persistConnOk := p, insertOk := i } ev).response =
        (webhook_handler env ev).response ∧
    (webhook_handler { env with persistConnOk := p, insertOk := i } ev).ledgerQueries =
        (webhook_handler env ev).ledgerQueries ∧
    (webhook_handler { env with persistConnOk := p, insertOk := i } ev).deliveries =
        (webhook_handler env ev).deliveries := by
  unfold webhook_handler
  cases paymentIntentStatus_tryFrom ev.type_ with
  | none => exact ⟨rfl, rfl, rfl⟩
  | some status =>
    dsimp only
    by_cases hl : isPaymentIntentLifecycle ev.type_
    · rw [if_pos hl, if_pos hl]
      cases ev.object with
      | paymentIntent pi =>
        unfold dispatchPaymentIntent
        simp only
        split_ifs <;> exact ⟨rfl, rfl, rfl⟩
      | paymentMethod pid => exact ⟨rfl, rfl, rfl⟩
      | charge cid cst => exact ⟨rfl, rfl, rfl⟩
      | other => exact ⟨rfl, rfl, rfl⟩
    · rw [if_neg hl, if_neg hl]
      exact ⟨rfl, rfl, rfl⟩

/-- C2: evaluation of the teardown update at a failing input.  Session
"conn-A" closes while the table holds one row for "conn-A" and one row for
the unrelated live connection "conn-B"; the update marks BOTH rows
inactive, because the glob-imported `connection_id` column shadows the
session's local `connection_id` string and the compiled filter is
`WHERE connection_id = connection_id` (see `teardown_update`).  The claim —
that rows of other connection ids are left unchanged — is what the code was
meant to do and fails here. -/
theorem C2_teardown_marks_unrelated_rows_inactive :
    teardown_update
        [{ id := 0, payment_intent_id := "pi-1", connection_id := "conn-A",
           customer_id := none, customer_email := none, status := "active" },
         { id := 1, payment_intent_id := "pi-2", connection_id := "conn-B",
           customer_id := none, customer_email := none, status := "active" }]
        "conn-A" =
      [{ id := 0, payment_intent_id := "pi-1", connection_id := "conn-A",
         customer_id := none, customer_email := none, status := "inactive" },
       { id := 1, payment_intent_id := "pi-2", connection_id := "conn-B",
         customer_id := none, customer_email := none, status := "inactive" }] := by
  decide

/-- C5 counterexample: a subscribe frame using the key `"transaction_id"`,
as the claim's wire format states, is silently ignored — no registration,
no Subscription row, and no confirmation message — because the code reads
the key `"payment_intent_id"`. -/
theorem C5_transaction_id_key_ignored_counterexample :
    handleTextMessage true true true "conn-1" 0
        (some [("type", .str "subscribe"), ("transaction_id", .str "tx-1")]) =
      { registrations := [], insertedRows := [], sentMessages := [] } := rfl

/-- C5 amended: for every well-formed subscribe frame
`{"type":"subscribe","payment_intent_id":"<string>", ...}` (the wire key is
`payment_intent_id`, not `transaction_id`), with the in-process registry
and the ledger store available, the session (a) registers this connection's
outbound queue under the frame's payment_intent_id, (b) inserts a
Subscription row with status "active", and (c) enqueues the confirmation
`{"type":"subscription_confirmed","payment_intent_id":"<string>"}`. -/
theorem C5_amended_subscribe_effects
    (json : JObj) (pid connId : String) (freshId : Nat)
    (htype : jStr json "type" = some "subscribe")
    (hpid : jStr json "payment_intent_id" = some pid) :
    handleTextMessage true true true connId freshId (some json) =
      { registrations := [pid]
        insertedRows := [WebSocketConnection.new pid connId (jStr json "customer_id")
          (jStr json "customer_email") freshId]
        sentMessages := [[("type", .str "subscription_confirmed"),
                          ("payment_intent_id", .str pid)]] } ∧
    (WebSocketConnection.new pid connId (jStr json "customer_id")
      (jStr json "customer_email") freshId).status = "active" := by
  constructor
  · simp [handleTextMessage, htype, hpid]
  · rfl

/-- Witness for the amended C5 at a concrete frame. -/
theorem C5_amended_subscribe_effects_witness :
    handleTextMessage true true true "conn-1" 7
        (some [("type", .str "subscribe"), ("payment_intent_id", .str "tx-9"),
               ("customer_id", .str "front-A")]) =
      { registrations := ["tx-9"]
        insertedRows := [WebSocketConnection.new "tx-9" "conn-1"
          (jStr [("type", JVal.str "subscribe"), ("payment_intent_id", JVal.str "tx-9"),
                 ("customer_id", JVal.str "front-A")] "customer_id")
          (jStr [("type", JVal.str "subscribe"), ("payment_intent_id", JVal.str "tx-9"),
                 ("customer_id", JVal.str "front-A")] "customer_email") 7]
        sentMessages := [[("type", .str "subscription_confirmed"),
                          ("payment_intent_id", .str "tx-9")]] } ∧
    (WebSocketConnection.new "tx-9" "conn-1"
      (jStr [("type", JVal.str "subscribe"), ("payment_intent_id", JVal.str "tx-9"),
             ("customer_id", JVal.str "front-A")] "customer_id")
      (jStr [("type", JVal.str "subscribe"), ("payment_intent_id", JVal.str "tx-9"),
             ("customer_id", JVal.str "front-A")] "customer_email") 7).status = "active" :=
  C5_amended_subscribe_effects _ "tx-9" "conn-1" 7 rfl rfl

/-- Reflexivity of row evolution. -/
theorem rowEvolves_refl (r : SubscriptionRow) : rowEvolves r r := Or.inl rfl

/-- Transitivity of row evolution: overwriting status with "inactive" twice
is the same as once. -/
theorem rowEvolves_trans {a b c : SubscriptionRow}
    (h1 : rowEvolves a b) (h2 : rowEvolves b c) : rowEvolves a c := by
  rcases h1 with rfl | rfl
  · exact h2
  · rcases h2 with rfl | rfl
    · exact Or.inr rfl
    · exact Or.inr rfl

/-- Reflexivity of table evolution. -/
theorem ledgerEvolves_refl (l : List SubscriptionRow) : ledgerEvolves l l := by
  refine ⟨le_refl _, fun i r r' h h' => ?_⟩
  rw [h] at h'
  cases h'
  exact rowEvolves_refl r

/-- Transitivity of table evolution. -/
theorem ledgerEvolves_trans {a b c : List SubscriptionRow}
    (h1 : ledgerEvolves a b) (h2 : ledgerEvolves b c) : ledgerEvolves a c := by
  obtain ⟨hab, hab2⟩ := h1
  obtain ⟨hbc, hbc2⟩ := h2
  refine ⟨le_trans hab hbc, fun i r r' h h' => ?_⟩
  have hi : i < a.length := by
    rcases List.getElem?_eq_some_iff.mp h with ⟨hlt, _⟩
    exact hlt
  have hib : i < b.length := lt_of_lt_of_le hi hab
  obtain ⟨m, hm⟩ : ∃ m, b[i]? = some m := by
    rw [List.getElem?_eq_getElem hib]
    exact ⟨b[i], rfl⟩
  exact rowEvolves_trans (hab2 i r m h hm) (hbc2 i m r' hm h')

/-- Each ledger-writing operation of the program evolves the table: the
subscribe insert appends (touching no existing row) and the teardown update
only overwrites statuses with "inactive". -/
theorem ledgerEvolves_applyOp (l : List SubscriptionRow) (op : LedgerOp) :
    ledgerEvolves l (applyLedgerOp l op) := by
  cases op with
  | subscribe pid cid cu em n =>
    refine ⟨by simp [applyLedgerOp], fun i r r' h h' => ?_⟩
    have hi : i < l.length := by
      rcases List.getElem?_eq_some_iff.mp h with ⟨hlt, _⟩
      exact hlt
    rw [applyLedgerOp, List.getElem?_append, if_pos hi, h] at h'
    cases h'
    exact rowEvolves_refl r
  | teardown cid =>
    refine ⟨by simp [applyLedgerOp, teardown_update], fun i r r' h h' => ?_⟩
    rw [applyLedgerOp, teardown_update, List.getElem?_map, h] at h'
    simp at h'
    exact Or.inr h'.symm

/-- Any sequence of the program's ledger-writing operations evolves the
table. -/
theorem ledgerEvolves_foldl (ops : List LedgerOp) :
    ∀ l, ledgerEvolves l (ops.foldl applyLedgerOp l) := by
  induction ops with
  | nil => intro l; exact ledgerEvolves_refl l
  | cons op ops ih =>
    intro l
    exact ledgerEvolves_trans (ledgerEvolves_applyOp l op) (ih (applyLedgerOp l op))

/-- C9: every Subscription row is created with status "active", and under
any sequence of the program's ledger-writing operations (subscribe inserts
and teardown updates — the only statements in the repository that write the
`websocket_connections` table) no row is ever deleted and every existing
row is either untouched or has its status overwritten with "inactive";
in particular no operation ever sets a row back to "active". -/
theorem C9_subscription_status_monotone
    (ledger : List SubscriptionRow) (ops : List LedgerOp) :
    (∀ pid cid cu em n, (WebSocketConnection.new pid cid cu em n).status = "active") ∧
    ledgerEvolves ledger (ops.foldl applyLedgerOp ledger) :=
  ⟨fun _ _ _ _ _ => rfl, ledgerEvolves_foldl ops ledger⟩

end CampReg
